import Mathlib

/-
Shallow embedding of the SerialPundit native serial library
(src/com.embeddedunveiled.native/macOS_serial/src/unix_like_serial.c)
and proofs about its I/O engine, configuration codec, thread registry
and port monitor.

Machine integers are modelled as Int (signed values such as jint/ssize_t
return codes) and Nat (unsigned bit fields, indices).  Bit operations on
termios flag words use Nat bitwise operators; clearing a mask m from x
(the C idiom  x &= ~m) is modelled as  x ^^^ (x &&& m), which agrees with
the C operation on every bit.  System calls are modelled by passing their
outcomes (return value and errno) explicitly, so each function is a pure,
executable definition over those outcome sequences.
-/

namespace UnixLikeSerial

/-- MAX_NUM_THREADS from unix_like_serial.c line 112: size of the global
fd_looper_info and port_monitor_info arrays. -/
def MAX_NUM_THREADS : Nat := 1024

/-- errno value EINTR (interrupted system call), value 4 on macOS. -/
def EINTR : Nat := 4

/-- errno value EAGAIN, value 35 on macOS. -/
def EAGAIN : Nat := 35

/-- errno value EWOULDBLOCK; on macOS it equals EAGAIN. -/
def EWOULDBLOCK : Nat := 35

/-! ## I/O Engine: readBytes (lines 568-631) -/

/-- Outcome of one underlying read(fd, buffer, sizeof(buffer)) call: the
returned count ret, the value of errno after the call, and the bytes the
kernel deposited in buffer[0 .. ret-1] when ret > 0. -/
structure ReadEvent where
  ret : Int
  errno : Nat
  bytes : List Int
deriving DecidableEq

/-- Size of the local jbyte buffer[1024] in readBytes: every underlying
read() is issued for exactly this many bytes (sizeof(buffer)). -/
def bufferSize : Nat := 1024

/-- Result of Java_..._readBytes: a returned jbyteArray, the NULL return
reached through the break on a hard error, or divergence of the do-while
loop (the supplied event sequence ran out). -/
inductive ReadOutcome where
  | arr (bytes : List Int)
  | null
  | diverged
deriving DecidableEq

/-- The copy loop  for(i = index; i < ret; i++) final_buf[i] = buffer[i];
from readBytes (lines 585-587 and 600-602): final_buf receives buffer[i]
at position i for i in [index, ret), all other positions keep their old
content.  Out-of-range reads of buffer are modelled as 0. -/
def copyLoop (finalBuf : Nat → Int) (buffer : List Int) (index ret : Nat) : Nat → Int :=
  fun j => if index ≤ j ∧ j < ret then buffer.getD j 0 else finalBuf j

/-- The do-while loop of readBytes (lines 578-628).  State: the events not
yet consumed, the C locals index and partialData (pData), and the contents
of final_buf (uninitialised memory modelled as 0). -/
def readBytesLoop : List ReadEvent → Nat → Bool → (Nat → Int) → ReadOutcome
  | [], _, _, _ => .diverged
  | e :: rest, index, pData, finalBuf =>
    if 0 < e.ret ∧ e.errno = 0 then
      if pData then
        ReadOutcome.arr ((List.range (index + e.ret.toNat)).map
          (copyLoop finalBuf e.bytes index e.ret.toNat))
      else
        ReadOutcome.arr (e.bytes.take e.ret.toNat)
    else if 0 < e.ret ∧ e.errno = EINTR then
      readBytesLoop rest e.ret.toNat true (copyLoop finalBuf e.bytes index e.ret.toNat)
    else if e.ret < 0 then
      if e.errno = EAGAIN ∨ e.errno = EWOULDBLOCK then ReadOutcome.arr []
      else if e.errno ≠ EINTR then ReadOutcome.null
      else readBytesLoop rest index pData finalBuf
    else if e.ret = 0 then ReadOutcome.arr []
    else readBytesLoop rest index pData finalBuf

/-- Java_..._readBytes(fd, count): the count argument is never used by the
function body; the loop starts with index 0, partialData unset and
final_buf uninitialised. -/
def readBytes (count : Int) (events : List ReadEvent) : ReadOutcome :=
  readBytesLoop events 0 false (fun _ => 0)

/-! ## I/O Engine: writeBytes (lines 640-681) -/

/-- Outcome of one underlying write(fd, &data_buf[index], count) call. -/
structure WriteEvent where
  ret : Int
  errno : Nat
deriving DecidableEq

/-- Result of Java_..._writeBytes: success carries the final value of the
C local index (bytes accepted before tcdrain and return 0); fail carries
the returned value negative * errno. -/
inductive WriteOutcome where
  | success (index : Nat)
  | fail (code : Int)
  | diverged
deriving DecidableEq

/-- The write loop  while((count > 0 && (ret = write(...))) != count)
(lines 650-661).  C operator precedence makes the condition compare the
0/1 value of the conjunction against count: when count is 0 the write is
skipped and 0 != 0 exits; otherwise a write is issued and the loop body
runs exactly when (if ret != 0 then 1 else 0) differs from count. -/
def writeBytesLoop : List WriteEvent → Nat → Nat → WriteOutcome
  | _, 0, index => .success index
  | [], _ + 1, _ => .diverged
  | e :: rest, count + 1, index =>
    if (if e.ret ≠ 0 then (1 : Nat) else 0) ≠ count + 1 then
      if e.ret < 0 ∧ e.errno = EINTR then
        writeBytesLoop rest (count + 1) index
      else if e.ret < 0 then
        .fail (-(e.errno : Int))
      else
        writeBytesLoop rest (count + 1 - e.ret.toNat) (index + e.ret.toNat)
    else
      .success index

/-- Java_..._writeBytes for a buffer of count bytes (the delay = 0 and
delay != 0 branches of the source are character-for-character identical
loops).  On loop exit the code calls tcdrain and returns 0. -/
def writeBytes (events : List WriteEvent) (count : Nat) : WriteOutcome :=
  writeBytesLoop events count 0

/-! ## Thread Registry (struct com_thread_params, fd_looper_info, dtp_index) -/

/-- struct com_thread_params: the fields the registry logic reads and
writes (the opaque jvm, looper and mutex pointers are omitted).  The
global array is initialised to all-zero entries. -/
structure ComThreadParams where
  fd : Int
  data_thread_id : Nat
  event_thread_id : Nat
  evfd : Int
  data_thread_exit : Nat
  event_thread_exit : Nat
  data_init_done : Int
  event_init_done : Int
deriving DecidableEq

/-- The all-zero entry that fd_looper_info[MAX_NUM_THREADS] = { {0} }
starts from. -/
def blankParams : ComThreadParams :=
  ⟨0, 0, 0, 0, 0, 0, 0, 0⟩

/-- The registry: the global array (modelled as a total function so that
out-of-bounds accesses at indices ≥ MAX_NUM_THREADS are representable)
together with the running insertion index dtp_index. -/
structure Registry where
  table : Nat → ComThreadParams
  dtp_index : Nat

/-- Pointwise update of a table at one index. -/
def updTable {α : Type} (t : Nat → α) (i : Nat) (e : α) : Nat → α :=
  fun j => if j = i then e else t j

/-- The linear scan  for (x=0; x < MAX_NUM_THREADS; x++) { if(p) break; ptr++; }
shared by the registration, teardown and monitor functions: starting at x
with the given fuel, return the first index satisfying p, or the index one
past the scanned range when none does (after the C loop, ptr then points
one element past the array). -/
def linearScanAux (p : Nat → Prop) [DecidablePred p] : Nat → Nat → Nat
  | x, 0 => x
  | x, fuel + 1 => if p x then x else linearScanAux p (x + 1) fuel

/-- Index of the first fd_looper_info slot whose fd field equals fd
(MAX_NUM_THREADS when no slot matches). -/
def scanForFd (t : Nat → ComThreadParams) (fd : Int) : Nat :=
  linearScanAux (fun i => (t i).fd = fd) 0 MAX_NUM_THREADS

/-- Result of setUpDataLooperThread / setUpEventLooperThread: a returned
jint together with the registry left behind, or hang when the busy-wait
while(0 == init_done) { } never observes a nonzero flag. -/
inductive SetUpResult where
  | ret (code : Int) (reg : Registry)
  | hang (reg : Registry)

/-- First nonzero value in the sequence of reads of the init_done flag
performed by the busy-wait loop. -/
def firstNonzero : List Int → Option Int
  | [] => none
  | v :: rest => if v ≠ 0 then some v else firstNonzero rest

/-- Common tail of setUpDataLooperThread after arg has been chosen (lines
1576-1606): pthread_create (failure returns negative * errno), store the
thread id through arg, bump dtp_index when no existing entry was found,
busy-wait on data_init_done, then return 0 when the flag settled at 1 and
the flag value otherwise.  The spawned thread writes the flag once, so the
reads after the wait see the same settled value. -/
def setUpDataAfterScan (reg : Registry) (argIndex : Nat) (entryFound : Bool)
    (createErrno : Option Nat) (threadId : Nat) (doneObs : List Int) : SetUpResult :=
  match createErrno with
  | some e => .ret (-(e : Int)) reg
  | none =>
    let t2 := updTable reg.table argIndex
      { reg.table argIndex with data_thread_id := threadId }
    let reg3 : Registry :=
      { table := t2, dtp_index := if entryFound then reg.dtp_index else reg.dtp_index + 1 }
    match firstNonzero doneObs with
    | none => .hang reg3
    | some v =>
      let e4 : ComThreadParams := { reg3.table argIndex with data_init_done := v }
      let reg4 : Registry := { reg3 with table := updTable reg3.table argIndex e4 }
      if v = 1 then .ret 0 reg4 else .ret v reg4

/-- Java_..._setUpDataLooperThread (lines 1519-1607): scan the table for
an existing entry for fd; when none exists, create a global reference for
the looper (failure returns -240) and write a fresh parameter block at
index dtp_index, with no check of dtp_index against MAX_NUM_THREADS. -/
def setUpDataLooperThread (reg : Registry) (fd : Int) (looperRefOk : Bool)
    (createErrno : Option Nat) (threadId : Nat) (doneObs : List Int) : SetUpResult :=
  let x := scanForFd reg.table fd
  if x < MAX_NUM_THREADS then
    setUpDataAfterScan reg x true createErrno threadId doneObs
  else if looperRefOk then
    let params : ComThreadParams := { blankParams with fd := fd }
    setUpDataAfterScan { reg with table := updTable reg.table reg.dtp_index params }
      reg.dtp_index false createErrno threadId doneObs
  else
    .ret (-240) reg

/-- Common tail of setUpEventLooperThread (lines 1725-1755), identical to
the data variant with the event_thread_id / event_init_done fields. -/
def setUpEventAfterScan (reg : Registry) (argIndex : Nat) (entryFound : Bool)
    (createErrno : Option Nat) (threadId : Nat) (doneObs : List Int) : SetUpResult :=
  match createErrno with
  | some e => .ret (-(e : Int)) reg
  | none =>
    let t2 := updTable reg.table argIndex
      { reg.table argIndex with event_thread_id := threadId }
    let reg3 : Registry :=
      { table := t2, dtp_index := if entryFound then reg.dtp_index else reg.dtp_index + 1 }
    match firstNonzero doneObs with
    | none => .hang reg3
    | some v =>
      let e4 : ComThreadParams := { reg3.table argIndex with event_init_done := v }
      let reg4 : Registry := { reg3 with table := updTable reg3.table argIndex e4 }
      if v = 1 then .ret 0 reg4 else .ret v reg4

/-- Java_..._setUpEventLooperThread (lines 1673-1756). -/
def setUpEventLooperThread (reg : Registry) (fd : Int) (looperRefOk : Bool)
    (createErrno : Option Nat) (threadId : Nat) (doneObs : List Int) : SetUpResult :=
  let x := scanForFd reg.table fd
  if x < MAX_NUM_THREADS then
    setUpEventAfterScan reg x true createErrno threadId doneObs
  else if looperRefOk then
    let params : ComThreadParams := { blankParams with fd := fd }
    setUpEventAfterScan { reg with table := updTable reg.table reg.dtp_index params }
      reg.dtp_index false createErrno threadId doneObs
  else
    .ret (-240) reg

/-- Java_..._destroyDataLooperThread (lines 1614-1666): scan for the entry
serving fd, set its data_thread_exit flag (at the one-past-the-end slot if
the scan found nothing), wake and join the thread (joinErr is the
pthread_join result; nonzero returns negative * joinErr), zero the
data_thread_id, and mark the slot free (fd = -1) only when no event
thread is recorded for it. -/
def destroyDataLooperThread (reg : Registry) (fd : Int) (joinErr : Nat) : Int × Registry :=
  let x := scanForFd reg.table fd
  let t1 := updTable reg.table x { reg.table x with data_thread_exit := 1 }
  if joinErr ≠ 0 then
    (-(joinErr : Int), { reg with table := t1 })
  else
    let e2 : ComThreadParams := { t1 x with data_thread_id := 0 }
    let e3 := if e2.event_thread_id = 0 then { e2 with fd := -1 } else e2
    (0, { reg with table := updTable t1 x e3 })

/-- Java_..._destroyEventLooperThread (lines 1764-1814): as the data
variant, with a pthread_kill(SIGUSR1) wake whose failure (killErr ≠ 0)
returns negative * killErr before the join, and with the roles of the
data/event fields swapped. -/
def destroyEventLooperThread (reg : Registry) (fd : Int) (killErr joinErr : Nat) :
    Int × Registry :=
  let x := scanForFd reg.table fd
  let t1 := updTable reg.table x { reg.table x with event_thread_exit := 1 }
  if killErr ≠ 0 then
    (-(killErr : Int), { reg with table := t1 })
  else if joinErr ≠ 0 then
    (-(joinErr : Int), { reg with table := t1 })
  else
    let e2 : ComThreadParams := { t1 x with event_thread_id := 0 }
    let e3 := if e2.data_thread_id = 0 then { e2 with fd := -1 } else e2
    (0, { reg with table := updTable t1 x e3 })

/-! ## Port Monitor (struct port_info, port_monitor_info, port_monitor_index) -/

/-- struct port_info: fields used by the monitor registration logic (the
opaque jvm, listener and mutex pointers are omitted). -/
structure PortInfo where
  fd : Int
  portName : String
  thread_id : Nat
  thread_exit : Nat
deriving DecidableEq

/-- The all-zero entry port_monitor_info starts from. -/
def blankPortInfo : PortInfo :=
  ⟨0, "", 0, 0⟩

/-- Monitor table state: the global port_monitor_info array and running
index port_monitor_index. -/
structure MonitorState where
  table : Nat → PortInfo
  port_monitor_index : Nat

/-- Index of the first port_monitor_info slot whose fd equals fd
(MAX_NUM_THREADS when none matches). -/
def scanMonitorFd (t : Nat → PortInfo) (fd : Int) : Nat :=
  linearScanAux (fun i => (t i).fd = fd) 0 MAX_NUM_THREADS

/-- Java_..._registerPortMonitorListener (lines 1822-1867): create a
global reference for the listener (failure returns -240), fill a fresh
port_info block and store it at port_monitor_index — no scan for an
existing monitor of the same path and no capacity check precede the store
— spawn the monitor thread (failure returns negative * errno), record its
id, increment port_monitor_index and return 0. -/
def registerPortMonitorListener (st : MonitorState) (fd : Int) (portName : String)
    (listenerRefOk : Bool) (createErrno : Option Nat) (threadId : Nat) :
    Int × MonitorState :=
  if listenerRefOk then
    let params : PortInfo := { fd := fd, portName := portName, thread_id := 0, thread_exit := 0 }
    let st1 : MonitorState := { st with table := updTable st.table st.port_monitor_index params }
    match createErrno with
    | some e => (-(e : Int), st1)
    | none =>
      let params2 : PortInfo := { params with thread_id := threadId }
      let st2 : MonitorState :=
        { st1 with table := updTable st1.table st.port_monitor_index params2 }
      (0, { st2 with port_monitor_index := st2.port_monitor_index + 1 })
  else
    (-240, st)

/-- Java_..._unregisterPortMonitorListener, __APPLE__ branch (lines
1922-1959): scan for the entry serving fd, set its thread_exit flag (at
the one-past-the-end slot if nothing matched), join the thread (nonzero
joinErr returns negative * joinErr), then zero the thread id and mark the
slot free. -/
def unregisterPortMonitorListener (st : MonitorState) (fd : Int) (joinErr : Nat) :
    Int × MonitorState :=
  let x := scanMonitorFd st.table fd
  let t1 := updTable st.table x { st.table x with thread_exit := 1 }
  if joinErr ≠ 0 then
    (-(joinErr : Int), { st with table := t1 })
  else
    (0, { st with table := updTable t1 x { t1 x with thread_id := 0, fd := -1 } })

/-! ## Configuration Codec: termios bit constants

Numeric values are those of the macOS termios headers this tree compiles
against (iflag: IXON 0x200, IXOFF 0x400, IGNPAR 0x4, PARMRK 0x8, INPCK
0x10, IMAXBEL 0x2000; cflag: CSIZE 0x300, CS5..CS8 0x0..0x300, CSTOPB
0x400, PARENB 0x1000, PARODD 0x2000, CCTS_OFLOW 0x10000, CRTS_IFLOW
0x20000, CRTSCTS = CCTS_OFLOW | CRTS_IFLOW).  PAREXT is the Solaris
extended-parity bit used only by the SunOS parity branch. -/

def IXON : Nat := 0x200

def IXOFF : Nat := 0x400

def IGNPAR : Nat := 0x4

def PARMRK : Nat := 0x8

def INPCK : Nat := 0x10

def IMAXBEL : Nat := 0x2000

def CSIZE : Nat := 0x300

def CS5 : Nat := 0x0

def CS6 : Nat := 0x100

def CS7 : Nat := 0x200

def CS8 : Nat := 0x300

def CSTOPB : Nat := 0x400

def PARENB : Nat := 0x1000

def PARODD : Nat := 0x2000

def CCTS_OFLOW : Nat := 0x10000

def CRTS_IFLOW : Nat := 0x20000

def CRTSCTS : Nat := CCTS_OFLOW ||| CRTS_IFLOW

def PAREXT : Nat := 0x100000

/-- The C idiom  x &= ~m  on an unsigned flag word: remove the bits of m
from x. -/
def clearBits (x m : Nat) : Nat := x ^^^ (x &&& m)

/-! ## configureComPortControl, __APPLE__ branch (lines 946-1069) -/

/-- struct termios as used by configureComPortControl: input and control
flag words and the VSTART/VSTOP control characters. -/
structure TermiosApple where
  c_iflag : Nat
  c_cflag : Nat
  c_cc_vstart : Nat
  c_cc_vstop : Nat
deriving DecidableEq

/-- Flow-control branch (lines 972-1007): exactly as the Apple-compiled
source orders the operations; an unrecognised flowctrl value changes
nothing (the empty else at line 1006). -/
def flowStepApple (cfg : TermiosApple) (flowctrl : Int) (xon xoff : Nat) : TermiosApple :=
  if flowctrl = 1 then
    { cfg with
      c_iflag := clearBits cfg.c_iflag (IXON ||| IXOFF),
      c_cflag := clearBits (clearBits (clearBits cfg.c_cflag CRTSCTS) CRTS_IFLOW) CCTS_OFLOW }
  else if flowctrl = 2 then
    { cfg with
      c_iflag := clearBits cfg.c_iflag (IXON ||| IXOFF),
      c_cflag := ((cfg.c_cflag ||| CRTSCTS) ||| CRTS_IFLOW) ||| CCTS_OFLOW }
  else if flowctrl = 3 then
    { cfg with
      c_cflag := clearBits cfg.c_cflag CRTSCTS,
      c_iflag := cfg.c_iflag ||| (IXON ||| IXOFF),
      c_cc_vstart := xon,
      c_cc_vstop := xoff }
  else
    cfg

/-- Parity/framing-error reporting branch (lines 1010-1030): requesting
reporting without PARENB configured returns -242 (modelled as none);
otherwise PARMRK is set and IGNPAR cleared; when reporting is off the
source sets then immediately clears both IGNPAR and PARMRK. -/
def parityErrStepApple (cfg : TermiosApple) (parFraError : Bool) : Option TermiosApple :=
  if parFraError then
    if ¬(cfg.c_cflag &&& PARENB = PARENB) then
      none
    else
      some { cfg with c_iflag := (clearBits cfg.c_iflag IGNPAR) ||| PARMRK }
  else
    some { cfg with
      c_iflag := clearBits (clearBits ((cfg.c_iflag ||| IGNPAR) ||| PARMRK) IGNPAR) PARMRK }

/-- Buffer-overrun signalling branch (lines 1035-1039). -/
def overrunStepApple (cfg : TermiosApple) (overFlowErr : Bool) : TermiosApple :=
  if overFlowErr then
    { cfg with c_iflag := cfg.c_iflag ||| IMAXBEL }
  else
    { cfg with c_iflag := clearBits cfg.c_iflag IMAXBEL }

/-- Java_..._configureComPortControl, __APPLE__ branch: tcgetattr (failure
returns negative * errno with nothing applied), the three mutation steps,
tcsetattr (failure returns negative * errno), tcflush, return 0.  The
second component is the configuration handed to tcsetattr when it was
reached and accepted. -/
def configureComPortControlApple (cfg0 : TermiosApple) (flowctrl : Int)
    (xon xoff : Nat) (parFraError overFlowErr : Bool)
    (tcgetattrErrno tcsetattrErrno : Option Nat) : Int × Option TermiosApple :=
  match tcgetattrErrno with
  | some e => (-(e : Int), none)
  | none =>
    let cfg1 := flowStepApple cfg0 flowctrl xon xoff
    match parityErrStepApple cfg1 parFraError with
    | none => (-242, none)
    | some cfg2 =>
      let cfg3 := overrunStepApple cfg2 overFlowErr
      match tcsetattrErrno with
      | some e => (-(e : Int), none)
      | none => (0, some cfg3)

/-! ## configureComPortData, __SunOS branch (lines 688-933) -/

/-- struct termios for the SunOS data-configuration branch: flag words
plus the line speed as programmed by cfsetspeed (Solaris keeps the speed
inside the control block; we record the value cfsetspeed was given). -/
structure TermiosSun where
  c_iflag : Nat
  c_cflag : Nat
  speed : Int
deriving DecidableEq

/-- The standard-baud switch (lines 750-827): each listed rate maps to the
platform constant (numerically the rate itself on this platform) and every
other value to -1. -/
def standardBaud (b : Int) : Int :=
  match b with
  | 0 => 0
  | 50 => 50
  | 75 => 75
  | 110 => 110
  | 134 => 134
  | 150 => 150
  | 200 => 200
  | 300 => 300
  | 600 => 600
  | 1200 => 1200
  | 1800 => 1800
  | 2400 => 2400
  | 4800 => 4800
  | 9600 => 9600
  | 14400 => 14400
  | 19200 => 19200
  | 28800 => 28800
  | 38400 => 38400
  | 56000 => 56000
  | 57600 => 57600
  | 115200 => 115200
  | 128000 => 128000
  | 153600 => 153600
  | 230400 => 230400
  | 256000 => 256000
  | 460800 => 460800
  | 500000 => 500000
  | 576000 => 576000
  | 921600 => 921600
  | 1000000 => 1000000
  | 1152000 => 1152000
  | 1500000 => 1500000
  | 2000000 => 2000000
  | 2500000 => 2500000
  | 3000000 => 3000000
  | 3500000 => 3500000
  | 4000000 => 4000000
  | _ => -1

/-- Data-bits switch (lines 843-857): clear CSIZE, then set the selected
width; values outside 5..8 leave only the cleared field. -/
def dataBitsStep (cflag : Nat) (dataBits : Int) : Nat :=
  let c := clearBits cflag CSIZE
  if dataBits = 5 then c ||| CS5
  else if dataBits = 6 then c ||| CS6
  else if dataBits = 7 then c ||| CS7
  else if dataBits = 8 then c ||| CS8
  else c

/-- Stop-bits setting (lines 860-864). -/
def stopBitsStep (cflag : Nat) (stopBits : Int) : Nat :=
  if stopBits = 1 then clearBits cflag CSTOPB else cflag ||| CSTOPB

/-- Parity clearing and setting (lines 871-909), PAREXT variant as
compiled for Solaris. -/
def parityStepSun (cfg : TermiosSun) (parity : Int) : TermiosSun :=
  let c0 := clearBits cfg.c_cflag (PARENB ||| PARODD ||| PAREXT)
  if parity = 1 then
    { cfg with c_cflag := clearBits c0 PARENB }
  else if parity = 2 then
    { cfg with c_cflag := c0 ||| (PARENB ||| PARODD), c_iflag := cfg.c_iflag ||| INPCK }
  else if parity = 3 then
    { cfg with c_cflag := clearBits (c0 ||| PARENB) PARODD, c_iflag := cfg.c_iflag ||| INPCK }
  else if parity = 4 then
    { cfg with c_cflag := c0 ||| (PARENB ||| PARODD ||| PAREXT),
               c_iflag := cfg.c_iflag ||| INPCK }
  else if parity = 5 then
    { cfg with c_cflag := clearBits (c0 ||| (PARENB ||| PAREXT)) PARODD,
               c_iflag := cfg.c_iflag ||| INPCK }
  else
    { cfg with c_cflag := c0 }

/-- Java_..._configureComPortData, __SunOS branch: tcgetattr, then the
baud handling — a custom-rate request (baudRateTranslated = 251) only
emits a debug message and falls through without touching the speed, while
a standard request goes through the switch and cfsetspeed — then data
bits, stop bits, parity, tcsetattr, tcflush, return 0.  The second
component is the configuration handed to a successful tcsetattr. -/
def configureComPortDataSun (cfg0 : TermiosSun)
    (dataBits stopBits parity baudRateTranslated custBaudTranslated : Int)
    (tcgetattrErrno cfsetspeedErrno tcsetattrErrno : Option Nat) :
    Int × Option TermiosSun :=
  match tcgetattrErrno with
  | some e => (-(e : Int), none)
  | none =>
    let afterBaud : Except Int TermiosSun :=
      if baudRateTranslated = 251 then
        Except.ok cfg0
      else
        match cfsetspeedErrno with
        | some e => Except.error (-(e : Int))
        | none => Except.ok { cfg0 with speed := standardBaud baudRateTranslated }
    match afterBaud with
    | Except.error r => (r, none)
    | Except.ok cfg1 =>
      let cfg2 : TermiosSun := { cfg1 with c_cflag := dataBitsStep cfg1.c_cflag dataBits }
      let cfg3 : TermiosSun := { cfg2 with c_cflag := stopBitsStep cfg2.c_cflag stopBits }
      let cfg4 := parityStepSun cfg3 parity
      match tcsetattrErrno with
      | some e => (-(e : Int), none)
      | none => (0, some cfg4)

/-! ## Projections and concrete fixtures used by the theorems below -/

/-- Return code of a registration call: none when the busy-wait never
terminates. -/
def SetUpResult.code : SetUpResult → Option Int
  | .ret c _ => some c
  | .hang _ => none

/-- Registry left behind by a registration call. -/
def SetUpResult.reg : SetUpResult → Registry
  | .ret _ r => r
  | .hang r => r

/-- Flow-control mode predicates, stated on the bit positions of the
macOS flag constants: IXON is bit 9, IXOFF bit 10 of c_iflag; CCTS_OFLOW
is bit 16, CRTS_IFLOW bit 17 of c_cflag. -/
def softFlowOn (cfg : TermiosApple) : Prop :=
  cfg.c_iflag.testBit 9 = true ∧ cfg.c_iflag.testBit 10 = true

/-- Both software flow-control enabling bits clear. -/
def softFlowOff (cfg : TermiosApple) : Prop :=
  cfg.c_iflag.testBit 9 = false ∧ cfg.c_iflag.testBit 10 = false

/-- Both hardware flow-control enabling bits set. -/
def hardFlowOn (cfg : TermiosApple) : Prop :=
  cfg.c_cflag.testBit 16 = true ∧ cfg.c_cflag.testBit 17 = true

/-- Every hardware flow-control enabling bit clear. -/
def hardFlowOff (cfg : TermiosApple) : Prop :=
  cfg.c_cflag.testBit 16 = false ∧ cfg.c_cflag.testBit 17 = false

/-- A registry in which all MAX_NUM_THREADS slots hold live entries (fds
100..1123) and dtp_index has reached the end of the table, as after 1024
registrations. -/
def c3FullReg : Registry :=
  ⟨fun i => { blankParams with fd := (i : Int) + 100, data_thread_id := 1 },
   MAX_NUM_THREADS⟩

/-- Registration of a fresh descriptor 50 against the full registry, with
the global-reference creation and pthread_create succeeding and the
spawned thread reporting readiness. -/
def c3Res : SetUpResult :=
  setUpDataLooperThread c3FullReg 50 true none 7 [0, 1]

/-- A registry whose slot 0 serves descriptor 3. -/
def c4Reg : Registry :=
  ⟨updTable (fun _ => blankParams) 0 { blankParams with fd := 3 }, 1⟩

/-- A registry whose slot 0 serves descriptor 7 with a data-listener
thread 2 and an event-listener thread 5 both recorded. -/
def c5Reg : Registry :=
  ⟨updTable (fun _ => blankParams) 0 ⟨7, 2, 5, 0, 0, 0, 0, 0⟩, 1⟩

/-- A monitor table with one live monitor (descriptor 4, path COM7,
thread 9) in slot 0 and insertion index 1. -/
def c8St : MonitorState :=
  ⟨updTable (fun _ => blankPortInfo) 0 ⟨4, "COM7", 9, 0⟩, 1⟩

/-- A looper table with one entry for descriptor 7 in slot 2. -/
def c10Found : Nat → ComThreadParams :=
  fun i => if i = 2 then { blankParams with fd := 7 } else blankParams

/-- The all-blank looper table (no slot serves descriptor 9). -/
def c10Blank : Nat → ComThreadParams :=
  fun _ => blankParams

/-- A monitor table with one entry for descriptor 8 in slot 3. -/
def c10MonFound : Nat → PortInfo :=
  fun i => if i = 3 then { blankPortInfo with fd := 8 } else blankPortInfo

/-- Registry over the all-blank table. -/
def c10RegBlank : Registry :=
  ⟨c10Blank, 0⟩

/-- Monitor state over the all-blank table. -/
def c10StBlank : MonitorState :=
  ⟨fun _ => blankPortInfo, 0⟩

/-! ## Helper lemmas -/

/-- Bit view of the C idiom  x &= ~m. -/
theorem testBit_clearBits (x m i : Nat) :
    (clearBits x m).testBit i = (x.testBit i && !(m.testBit i)) := by
  rw [clearBits, Nat.testBit_xor, Nat.testBit_land]
  cases x.testBit i <;> cases m.testBit i <;> rfl

/-- The busy-wait loop only ever hands back a nonzero flag value. -/
theorem firstNonzero_ne_zero : ∀ (l : List Int) (v : Int),
    firstNonzero l = some v → v ≠ 0 := by
  intro l
  induction l with
  | nil => intro v h; simp [firstNonzero] at h
  | cons a rest ih =>
    intro v h
    by_cases ha : a ≠ 0
    · simp [firstNonzero, ha] at h
      omega
    · simp [firstNonzero, ha] at h
      exact ih v h

/-- When no scanned index satisfies p, the scan runs to one past the
scanned range. -/
theorem linearScanAux_not_found (p : Nat → Prop) [DecidablePred p] :
    ∀ (fuel x : Nat), (∀ i, i < fuel → ¬p (x + i)) →
      linearScanAux p x fuel = x + fuel := by
  intro fuel
  induction fuel with
  | zero => intro x _; simp [linearScanAux]
  | succ n ih =>
    intro x h
    have h0 : ¬p x := by
      have := h 0 (Nat.succ_pos n)
      simpa using this
    have hrest : ∀ i, i < n → ¬p (x + 1 + i) := by
      intro i hi
      have := h (i + 1) (by omega)
      have harr : x + (i + 1) = x + 1 + i := by omega
      rw [harr] at this
      exact this
    rw [linearScanAux, if_neg h0, ih (x + 1) hrest]
    omega

/-- When some scanned index satisfies p, the scan stops inside the range
at an index satisfying p. -/
theorem linearScanAux_found (p : Nat → Prop) [DecidablePred p] :
    ∀ (fuel x : Nat), (∃ i, i < fuel ∧ p (x + i)) →
      linearScanAux p x fuel < x + fuel ∧ p (linearScanAux p x fuel) := by
  intro fuel
  induction fuel with
  | zero =>
    intro x h
    obtain ⟨i, hi, _⟩ := h
    omega
  | succ n ih =>
    intro x h
    by_cases h0 : p x
    · rw [linearScanAux, if_pos h0]
      exact ⟨by omega, h0⟩
    · rw [linearScanAux, if_neg h0]
      obtain ⟨i, hi, hp⟩ := h
      have hi0 : i ≠ 0 := by
        intro he
        apply h0
        simpa [he] using hp
      have hx : ∃ j, j < n ∧ p (x + 1 + j) := by
        refine ⟨i - 1, by omega, ?_⟩
        have harr : x + 1 + (i - 1) = x + i := by omega
        rw [harr]
        exact hp
      have := ih (x + 1) hx
      exact ⟨by omega, this.2⟩

/-! ## Claim theorems -/

/-- Claim C1 (code bug): after a partial read of 1 byte (0x0A) followed
by a successful read of 2 bytes (0x14, 0x1E), readBytes returns a
3-byte array whose entry 1 is the SECOND byte of the second read and
whose entry 2 is uninitialised final_buf memory (modelled 0) — the
append loop copies buffer[i] to final_buf[i] for i in [index, ret)
instead of appending buffer[0 .. ret) at offset index — so the result is
not the concatenation 10, 20, 30 the claim requires. -/
theorem readBytes_partial_then_success_drops_bytes :
    readBytes 1024 [⟨1, EINTR, [10]⟩, ⟨2, 0, [20, 30]⟩] =
      ReadOutcome.arr [10, 30, 0] ∧
    ReadOutcome.arr [10, 30, 0] ≠ ReadOutcome.arr [10, 20, 30] := by
  constructor
  · rfl
  · decide

/-- Claim C2 (code bug): with a 1-byte buffer whose first write fails,
the loop condition (count greater than 0 AND write result) != count
compares the conjunction value 1 against count 1 and exits, so
writeBytes returns 0 (success, with 0 bytes accepted) instead of
retrying on EINTR or returning negative errno on a hard error (here
errno 5). -/
theorem writeBytes_one_byte_error_returns_success :
    writeBytes [⟨-1, EINTR⟩] 1 = WriteOutcome.success 0 ∧
    writeBytes [⟨-1, 5⟩] 1 = WriteOutcome.success 0 := by
  constructor <;> rfl

/-- Claim C6 (code bug): on the SunOS branch a custom-baud request
(baudRateTranslated 251) with every system call succeeding returns 0 and
applies a configuration whose speed is still the pre-existing 9600 — the
unsupported custom rate 250000 is silently left unapplied instead of
being reported. -/
theorem configureComPortDataSun_custom_baud_silent_success :
    (configureComPortDataSun ⟨0, 0, 9600⟩ 8 1 1 251 250000 none none none).1 = 0 ∧
    Option.map TermiosSun.speed
      (configureComPortDataSun ⟨0, 0, 9600⟩ 8 1 1 251 250000 none none none).2 =
      some 9600 := by
  constructor <;> rfl

set_option maxRecDepth 8192 in
/-- Claim C3 (code bug): when every one of the MAX_NUM_THREADS slots is
occupied and dtp_index has reached the table end, registering a fresh
descriptor (50) finds no existing entry, performs no capacity check,
stores the new parameter block at fd_looper_info[MAX_NUM_THREADS] — one
element past the bounded table — bumps dtp_index past the capacity and
returns 0; no explicit capacity error is ever produced. -/
theorem setUpDataLooperThread_full_table_overflows :
    scanForFd c3FullReg.table 50 = MAX_NUM_THREADS ∧
    c3Res.code = some 0 ∧
    (c3Res.reg.table MAX_NUM_THREADS).fd = 50 ∧
    c3Res.reg.dtp_index = MAX_NUM_THREADS + 1 := by
  exact ⟨rfl, rfl, rfl, rfl⟩

/-- The common tail of both registration functions returns exactly when
the busy-wait observes a nonzero init flag, with code 0 for flag value 1
and the flag value itself otherwise (data variant). -/
theorem setUpDataAfterScan_code (reg : Registry) (idx : Nat) (ef : Bool)
    (tid : Nat) (obs : List Int) :
    ((setUpDataAfterScan reg idx ef none tid obs).code = none ↔
      firstNonzero obs = none) ∧
    (∀ v, firstNonzero obs = some v →
      (setUpDataAfterScan reg idx ef none tid obs).code =
        some (if v = 1 then 0 else v)) := by
  unfold setUpDataAfterScan
  cases h : firstNonzero obs with
  | none => simp [SetUpResult.code]
  | some v =>
    constructor
    · by_cases hv : v = 1 <;> simp [hv, SetUpResult.code]
    · intro w hw
      have hwv : w = v := (Option.some.inj hw).symm
      subst hwv
      by_cases hv : w = 1 <;> simp [hv, SetUpResult.code]

/-- As setUpDataAfterScan_code, for the event variant. -/
theorem setUpEventAfterScan_code (reg : Registry) (idx : Nat) (ef : Bool)
    (tid : Nat) (obs : List Int) :
    ((setUpEventAfterScan reg idx ef none tid obs).code = none ↔
      firstNonzero obs = none) ∧
    (∀ v, firstNonzero obs = some v →
      (setUpEventAfterScan reg idx ef none tid obs).code =
        some (if v = 1 then 0 else v)) := by
  unfold setUpEventAfterScan
  cases h : firstNonzero obs with
  | none => simp [SetUpResult.code]
  | some v =>
    constructor
    · by_cases hv : v = 1 <;> simp [hv, SetUpResult.code]
    · intro w hw
      have hwv : w = v := (Option.some.inj hw).symm
      subst hwv
      by_cases hv : w = 1 <;> simp [hv, SetUpResult.code]

/-- Claim C4: with the global-reference creation and pthread_create
succeeding, setUpDataLooperThread and setUpEventLooperThread do not
return while the spawned thread's init flag is still zero (the call
hangs exactly when the flag never becomes nonzero), and when the flag
settles at a nonzero terminal value v the call returns 0 exactly for
v = 1 and returns v itself otherwise. -/
theorem setUpLooperThread_rendezvous (reg : Registry) (fd : Int)
    (tid : Nat) (obs : List Int) :
    (((setUpDataLooperThread reg fd true none tid obs).code = none ↔
        firstNonzero obs = none) ∧
     (∀ v, firstNonzero obs = some v → v ≠ 0 ∧
        (setUpDataLooperThread reg fd true none tid obs).code =
          some (if v = 1 then 0 else v))) ∧
    (((setUpEventLooperThread reg fd true none tid obs).code = none ↔
        firstNonzero obs = none) ∧
     (∀ v, firstNonzero obs = some v → v ≠ 0 ∧
        (setUpEventLooperThread reg fd true none tid obs).code =
          some (if v = 1 then 0 else v))) := by
  constructor
  · simp only [setUpDataLooperThread]
    rcases Nat.lt_or_ge (scanForFd reg.table fd) MAX_NUM_THREADS with hx | hx
    · rw [if_pos hx]
      exact ⟨(setUpDataAfterScan_code _ _ _ _ _).1, fun v hv =>
        ⟨firstNonzero_ne_zero obs v hv, (setUpDataAfterScan_code _ _ _ _ _).2 v hv⟩⟩
    · rw [if_neg (Nat.not_lt.mpr hx)]
      simp only [if_true]
      exact ⟨(setUpDataAfterScan_code _ _ _ _ _).1, fun v hv =>
        ⟨firstNonzero_ne_zero obs v hv, (setUpDataAfterScan_code _ _ _ _ _).2 v hv⟩⟩
  · simp only [setUpEventLooperThread]
    rcases Nat.lt_or_ge (scanForFd reg.table fd) MAX_NUM_THREADS with hx | hx
    · rw [if_pos hx]
      exact ⟨(setUpEventAfterScan_code _ _ _ _ _).1, fun v hv =>
        ⟨firstNonzero_ne_zero obs v hv, (setUpEventAfterScan_code _ _ _ _ _).2 v hv⟩⟩
    · rw [if_neg (Nat.not_lt.mpr hx)]
      simp only [if_true]
      exact ⟨(setUpEventAfterScan_code _ _ _ _ _).1, fun v hv =>
        ⟨firstNonzero_ne_zero obs v hv, (setUpEventAfterScan_code _ _ _ _ _).2 v hv⟩⟩

/-- Witness for C4: registering descriptor 3 (already in slot 0 of
c4Reg), with the spawned thread reporting readiness 1 after one idle
observation, returns 0 for both listener kinds. -/
theorem setUpLooperThread_rendezvous_witness :
    (((setUpDataLooperThread c4Reg 3 true none 7 [0, 1]).code = none ↔
        firstNonzero [0, 1] = none) ∧
     ((1 : Int) ≠ 0 ∧
        (setUpDataLooperThread c4Reg 3 true none 7 [0, 1]).code =
          some (if (1 : Int) = 1 then 0 else 1)) ∧
     ((setUpEventLooperThread c4Reg 3 true none 7 [0, 1]).code = none ↔
        firstNonzero [0, 1] = none) ∧
     ((1 : Int) ≠ 0 ∧
        (setUpEventLooperThread c4Reg 3 true none 7 [0, 1]).code =
          some (if (1 : Int) = 1 then 0 else 1))) :=
  ⟨(setUpLooperThread_rendezvous c4Reg 3 7 [0, 1]).1.1,
   (setUpLooperThread_rendezvous c4Reg 3 7 [0, 1]).1.2 1 rfl,
   (setUpLooperThread_rendezvous c4Reg 3 7 [0, 1]).2.1,
   (setUpLooperThread_rendezvous c4Reg 3 7 [0, 1]).2.2 1 rfl⟩

/-- Claim C5: for a registry holding an entry for fd, a successful
destroy of one listener kind returns 0, zeroes only that kind's thread
identity, leaves the other kind's thread identity intact, marks the slot
free (fd = -1) exactly when the other kind records no thread, keeps the
descriptor otherwise, and touches no other slot. -/
theorem destroyLooperThread_reclaims_only_when_both_stopped
    (reg : Registry) (fd : Int)
    (hx : ∃ i, i < MAX_NUM_THREADS ∧ (reg.table i).fd = fd) :
    scanForFd reg.table fd < MAX_NUM_THREADS ∧
    (reg.table (scanForFd reg.table fd)).fd = fd ∧
    ((destroyDataLooperThread reg fd 0).1 = 0 ∧
     ((destroyDataLooperThread reg fd 0).2.table (scanForFd reg.table fd)).data_thread_id = 0 ∧
     ((destroyDataLooperThread reg fd 0).2.table (scanForFd reg.table fd)).event_thread_id =
       (reg.table (scanForFd reg.table fd)).event_thread_id ∧
     ((reg.table (scanForFd reg.table fd)).event_thread_id = 0 →
       ((destroyDataLooperThread reg fd 0).2.table (scanForFd reg.table fd)).fd = -1) ∧
     ((reg.table (scanForFd reg.table fd)).event_thread_id ≠ 0 →
       ((destroyDataLooperThread reg fd 0).2.table (scanForFd reg.table fd)).fd =
         (reg.table (scanForFd reg.table fd)).fd) ∧
     (∀ j, j ≠ scanForFd reg.table fd →
       (destroyDataLooperThread reg fd 0).2.table j = reg.table j)) ∧
    ((destroyEventLooperThread reg fd 0 0).1 = 0 ∧
     ((destroyEventLooperThread reg fd 0 0).2.table (scanForFd reg.table fd)).event_thread_id = 0 ∧
     ((destroyEventLooperThread reg fd 0 0).2.table (scanForFd reg.table fd)).data_thread_id =
       (reg.table (scanForFd reg.table fd)).data_thread_id ∧
     ((reg.table (scanForFd reg.table fd)).data_thread_id = 0 →
       ((destroyEventLooperThread reg fd 0 0).2.table (scanForFd reg.table fd)).fd = -1) ∧
     ((reg.table (scanForFd reg.table fd)).data_thread_id ≠ 0 →
       ((destroyEventLooperThread reg fd 0 0).2.table (scanForFd reg.table fd)).fd =
         (reg.table (scanForFd reg.table fd)).fd) ∧
     (∀ j, j ≠ scanForFd reg.table fd →
       (destroyEventLooperThread reg fd 0 0).2.table j = reg.table j)) := by
  have hscan := linearScanAux_found (fun i => (reg.table i).fd = fd)
    MAX_NUM_THREADS 0 (by simpa using hx)
  refine ⟨by simpa using hscan.1, hscan.2, ?_, ?_⟩
  · by_cases he : (reg.table (scanForFd reg.table fd)).event_thread_id = 0
    · exact ⟨by simp [destroyDataLooperThread, updTable, he],
        by simp [destroyDataLooperThread, updTable, he],
        by simp [destroyDataLooperThread, updTable, he],
        fun _ => by simp [destroyDataLooperThread, updTable, he],
        fun hne => absurd he hne,
        fun j hj => by simp [destroyDataLooperThread, updTable, hj]⟩
    · exact ⟨by simp [destroyDataLooperThread, updTable, he],
        by simp [destroyDataLooperThread, updTable, he],
        by simp [destroyDataLooperThread, updTable, he],
        fun h0 => absurd h0 he,
        fun _ => by simp [destroyDataLooperThread, updTable, he],
        fun j hj => by simp [destroyDataLooperThread, updTable, hj]⟩
  · by_cases he : (reg.table (scanForFd reg.table fd)).data_thread_id = 0
    · exact ⟨by simp [destroyEventLooperThread, updTable, he],
        by simp [destroyEventLooperThread, updTable, he],
        by simp [destroyEventLooperThread, updTable, he],
        fun _ => by simp [destroyEventLooperThread, updTable, he],
        fun hne => absurd he hne,
        fun j hj => by simp [destroyEventLooperThread, updTable, hj]⟩
    · exact ⟨by simp [destroyEventLooperThread, updTable, he],
        by simp [destroyEventLooperThread, updTable, he],
        by simp [destroyEventLooperThread, updTable, he],
        fun h0 => absurd h0 he,
        fun _ => by simp [destroyEventLooperThread, updTable, he],
        fun j hj => by simp [destroyEventLooperThread, updTable, hj]⟩

/-- Witness for C5: destroying the data listener of descriptor 7 in
c5Reg (slot 0, data thread 2, event thread 5) leaves the event thread
recorded and the descriptor in place; destroying the event listener
leaves the data thread recorded. -/
theorem destroyLooperThread_reclaims_witness :
    scanForFd c5Reg.table 7 < MAX_NUM_THREADS ∧
    (c5Reg.table (scanForFd c5Reg.table 7)).fd = 7 ∧
    ((destroyDataLooperThread c5Reg 7 0).1 = 0 ∧
     ((destroyDataLooperThread c5Reg 7 0).2.table (scanForFd c5Reg.table 7)).data_thread_id = 0 ∧
     ((destroyDataLooperThread c5Reg 7 0).2.table (scanForFd c5Reg.table 7)).event_thread_id =
       (c5Reg.table (scanForFd c5Reg.table 7)).event_thread_id ∧
     ((c5Reg.table (scanForFd c5Reg.table 7)).event_thread_id = 0 →
       ((destroyDataLooperThread c5Reg 7 0).2.table (scanForFd c5Reg.table 7)).fd = -1) ∧
     ((c5Reg.table (scanForFd c5Reg.table 7)).event_thread_id ≠ 0 →
       ((destroyDataLooperThread c5Reg 7 0).2.table (scanForFd c5Reg.table 7)).fd =
         (c5Reg.table (scanForFd c5Reg.table 7)).fd) ∧
     (∀ j, j ≠ scanForFd c5Reg.table 7 →
       (destroyDataLooperThread c5Reg 7 0).2.table j = c5Reg.table j)) ∧
    ((destroyEventLooperThread c5Reg 7 0 0).1 = 0 ∧
     ((destroyEventLooperThread c5Reg 7 0 0).2.table (scanForFd c5Reg.table 7)).event_thread_id = 0 ∧
     ((destroyEventLooperThread c5Reg 7 0 0).2.table (scanForFd c5Reg.table 7)).data_thread_id =
       (c5Reg.table (scanForFd c5Reg.table 7)).data_thread_id ∧
     ((c5Reg.table (scanForFd c5Reg.table 7)).data_thread_id = 0 →
       ((destroyEventLooperThread c5Reg 7 0 0).2.table (scanForFd c5Reg.table 7)).fd = -1) ∧
     ((c5Reg.table (scanForFd c5Reg.table 7)).data_thread_id ≠ 0 →
       ((destroyEventLooperThread c5Reg 7 0 0).2.table (scanForFd c5Reg.table 7)).fd =
         (c5Reg.table (scanForFd c5Reg.table 7)).fd) ∧
     (∀ j, j ≠ scanForFd c5Reg.table 7 →
       (destroyEventLooperThread c5Reg 7 0 0).2.table j = c5Reg.table j)) :=
  destroyLooperThread_reclaims_only_when_both_stopped c5Reg 7 ⟨0, by decide, by decide⟩

/-- Buffer-overrun signalling preserves the whole control-flag word and
the software flow-control bits of the input-flag word. -/
theorem overrunStepApple_preserves (cfg : TermiosApple) (b : Bool) :
    (overrunStepApple cfg b).c_cflag = cfg.c_cflag ∧
    (overrunStepApple cfg b).c_iflag.testBit 9 = cfg.c_iflag.testBit 9 ∧
    (overrunStepApple cfg b).c_iflag.testBit 10 = cfg.c_iflag.testBit 10 := by
  have h9 : IMAXBEL.testBit 9 = false := by decide
  have h10 : IMAXBEL.testBit 10 = false := by decide
  unfold overrunStepApple
  cases b <;> simp [testBit_clearBits, Nat.testBit_lor, h9, h10]

/-- Parity-error-reporting configuration, when it succeeds, preserves the
whole control-flag word and the software flow-control bits of the
input-flag word. -/
theorem parityErrStepApple_preserves (cfg cfg2 : TermiosApple) (b : Bool)
    (h : parityErrStepApple cfg b = some cfg2) :
    cfg2.c_cflag = cfg.c_cflag ∧
    cfg2.c_iflag.testBit 9 = cfg.c_iflag.testBit 9 ∧
    cfg2.c_iflag.testBit 10 = cfg.c_iflag.testBit 10 := by
  have hg9 : IGNPAR.testBit 9 = false := by decide
  have hg10 : IGNPAR.testBit 10 = false := by decide
  have hm9 : PARMRK.testBit 9 = false := by decide
  have hm10 : PARMRK.testBit 10 = false := by decide
  unfold parityErrStepApple at h
  cases b with
  | false =>
    simp only [Bool.false_eq_true, if_false, Option.some.injEq] at h
    rw [← h]
    simp [testBit_clearBits, Nat.testBit_lor, hg9, hg10, hm9, hm10]
  | true =>
    simp only [if_true] at h
    by_cases hp : ¬(cfg.c_cflag &&& PARENB = PARENB)
    · rw [if_pos hp] at h
      exact absurd h (by simp)
    · rw [if_neg hp] at h
      have h2 := Option.some.inj h
      rw [← h2]
      simp [testBit_clearBits, Nat.testBit_lor, hg9, hg10, hm9, hm10]

/-- Flow control 1 (none) clears both software and every hardware
flow-control bit. -/
theorem flowStepApple_one (cfg : TermiosApple) (xon xoff : Nat) :
    softFlowOff (flowStepApple cfg 1 xon xoff) ∧
    hardFlowOff (flowStepApple cfg 1 xon xoff) := by
  have hs9 : (IXON ||| IXOFF).testBit 9 = true := by decide
  have hs10 : (IXON ||| IXOFF).testBit 10 = true := by decide
  have hc16 : CRTSCTS.testBit 16 = true := by decide
  have hc17 : CRTSCTS.testBit 17 = true := by decide
  unfold flowStepApple
  rw [if_pos rfl]
  simp [softFlowOff, hardFlowOff, testBit_clearBits, hs9, hs10, hc16, hc17]

/-- Flow control 2 (hardware) sets both hardware bits and clears both
software bits. -/
theorem flowStepApple_two (cfg : TermiosApple) (xon xoff : Nat) :
    hardFlowOn (flowStepApple cfg 2 xon xoff) ∧
    softFlowOff (flowStepApple cfg 2 xon xoff) := by
  have hs9 : (IXON ||| IXOFF).testBit 9 = true := by decide
  have hs10 : (IXON ||| IXOFF).testBit 10 = true := by decide
  have hf16 : CCTS_OFLOW.testBit 16 = true := by decide
  have hf17 : CRTS_IFLOW.testBit 17 = true := by decide
  unfold flowStepApple
  rw [if_neg (by decide), if_pos rfl]
  simp [hardFlowOn, softFlowOff, testBit_clearBits, Nat.testBit_lor, hs9, hs10, hf16, hf17]

/-- Flow control 3 (software) sets both software bits and — because on
this platform CRTSCTS is the union of both hardware bits — clears every
hardware flow-control bit. -/
theorem flowStepApple_three (cfg : TermiosApple) (xon xoff : Nat) :
    softFlowOn (flowStepApple cfg 3 xon xoff) ∧
    hardFlowOff (flowStepApple cfg 3 xon xoff) := by
  have hs9 : (IXON ||| IXOFF).testBit 9 = true := by decide
  have hs10 : (IXON ||| IXOFF).testBit 10 = true := by decide
  have hc16 : CRTSCTS.testBit 16 = true := by decide
  have hc17 : CRTSCTS.testBit 17 = true := by decide
  unfold flowStepApple
  rw [if_neg (by decide), if_neg (by decide), if_pos rfl]
  simp [softFlowOn, hardFlowOff, testBit_clearBits, Nat.testBit_lor, hs9, hs10, hc16, hc17]

/-- Claim C7: every successful configureComPortControl call with
flowctrl in 1, 2, 3 leaves exactly one flow-control mode active in the
applied configuration: none clears all enabling bits, hardware sets both
hardware bits and clears IXON and IXOFF, software sets IXON and IXOFF and
clears every hardware flow-control bit of the platform. -/
theorem configureComPortControl_flow_modes_exclusive
    (cfg0 cfg' : TermiosApple) (fl : Int) (xon xoff : Nat) (pfe ofe : Bool)
    (eget eset : Option Nat)
    (h : configureComPortControlApple cfg0 fl xon xoff pfe ofe eget eset = (0, some cfg')) :
    (fl = 1 → softFlowOff cfg' ∧ hardFlowOff cfg') ∧
    (fl = 2 → hardFlowOn cfg' ∧ softFlowOff cfg') ∧
    (fl = 3 → softFlowOn cfg' ∧ hardFlowOff cfg') := by
  cases eget with
  | some e => simp [configureComPortControlApple] at h
  | none =>
    rw [configureComPortControlApple] at h
    cases hp : parityErrStepApple (flowStepApple cfg0 fl xon xoff) pfe with
    | none =>
      rw [hp] at h
      simp at h
    | some cfg2 =>
      rw [hp] at h
      cases eset with
      | some e => simp at h
      | none =>
        simp only [Option.some.injEq, Prod.mk.injEq, true_and] at h
        obtain ⟨hc, h9, h10⟩ := parityErrStepApple_preserves _ _ _ hp
        obtain ⟨oc, o9, o10⟩ := overrunStepApple_preserves cfg2 ofe
        refine ⟨?_, ?_, ?_⟩ <;> intro hfl <;> subst hfl
        · obtain ⟨⟨s9, s10⟩, hh16, hh17⟩ := flowStepApple_one cfg0 xon xoff
          exact ⟨⟨by rw [← h, o9, h9]; exact s9, by rw [← h, o10, h10]; exact s10⟩,
                 by rw [← h, oc, hc]; exact hh16, by rw [← h, oc, hc]; exact hh17⟩
        · obtain ⟨⟨t16, t17⟩, s9, s10⟩ := flowStepApple_two cfg0 xon xoff
          exact ⟨⟨by rw [← h, oc, hc]; exact t16, by rw [← h, oc, hc]; exact t17⟩,
                 by rw [← h, o9, h9]; exact s9, by rw [← h, o10, h10]; exact s10⟩
        · obtain ⟨⟨s9, s10⟩, hh16, hh17⟩ := flowStepApple_three cfg0 xon xoff
          exact ⟨⟨by rw [← h, o9, h9]; exact s9, by rw [← h, o10, h10]; exact s10⟩,
                 by rw [← h, oc, hc]; exact hh16, by rw [← h, oc, hc]; exact hh17⟩

/-- Witness for C7: requesting software flow control on an all-clear
configuration succeeds and the applied configuration has IXON and IXOFF
set with every hardware bit clear. -/
theorem configureComPortControl_flow_modes_witness :
    ((3 : Int) = 1 → softFlowOff ⟨1536, 0, 17, 19⟩ ∧ hardFlowOff ⟨1536, 0, 17, 19⟩) ∧
    ((3 : Int) = 2 → hardFlowOn ⟨1536, 0, 17, 19⟩ ∧ softFlowOff ⟨1536, 0, 17, 19⟩) ∧
    ((3 : Int) = 3 → softFlowOn ⟨1536, 0, 17, 19⟩ ∧ hardFlowOff ⟨1536, 0, 17, 19⟩) :=
  configureComPortControl_flow_modes_exclusive ⟨0, 0, 0, 0⟩ ⟨1536, 0, 17, 19⟩ 3 17 19
    false false none none rfl

/-- Claim C8 counterexample: with a monitor for path COM7 already live
in slot 0 of c8St, a second registerPortMonitorListener call for the
same path returns 0 (success) and appends a second monitor entry (and
thread 11) at slot 1, leaving two monitors for one path — no
AlreadyRegistered/duplicate failure occurs. -/
theorem registerPortMonitor_duplicate_not_rejected :
    (registerPortMonitorListener c8St 4 "COM7" true none 11).1 = 0 ∧
    ((registerPortMonitorListener c8St 4 "COM7" true none 11).2.table 1).portName = "COM7" ∧
    ((registerPortMonitorListener c8St 4 "COM7" true none 11).2.table 1).thread_id = 11 ∧
    (registerPortMonitorListener c8St 4 "COM7" true none 11).2.table 0 = ⟨4, "COM7", 9, 0⟩ ∧
    (registerPortMonitorListener c8St 4 "COM7" true none 11).2.port_monitor_index = 2 := by
  exact ⟨rfl, rfl, rfl, rfl, rfl⟩

/-- Claim C8 (amended): registerPortMonitorListener performs no
duplicate-path check: every registration whose global-reference creation
and thread spawn succeed — including one for a path already being
monitored — returns 0, stores a fresh monitor entry at
port_monitor_index, increments that index, and leaves every other slot
(in particular any existing monitor for the same path) unchanged. -/
theorem registerPortMonitor_appends (st : MonitorState) (fd : Int)
    (name : String) (tid : Nat) :
    (registerPortMonitorListener st fd name true none tid).1 = 0 ∧
    (registerPortMonitorListener st fd name true none tid).2.table st.port_monitor_index =
      ⟨fd, name, tid, 0⟩ ∧
    (registerPortMonitorListener st fd name true none tid).2.port_monitor_index =
      st.port_monitor_index + 1 ∧
    (∀ j, j ≠ st.port_monitor_index →
      (registerPortMonitorListener st fd name true none tid).2.table j = st.table j) := by
  refine ⟨rfl, by simp [registerPortMonitorListener, updTable], rfl,
    fun j hj => by simp [registerPortMonitorListener, updTable, hj]⟩

/-- Witness for the amended C8: registering a monitor for COM9 on c8St
succeeds, lands in the next slot, and leaves the COM7 monitor in slot 0
untouched. -/
theorem registerPortMonitor_appends_witness :
    (registerPortMonitorListener c8St 5 "COM9" true none 12).1 = 0 ∧
    (registerPortMonitorListener c8St 5 "COM9" true none 12).2.table c8St.port_monitor_index =
      ⟨5, "COM9", 12, 0⟩ ∧
    (registerPortMonitorListener c8St 5 "COM9" true none 12).2.port_monitor_index =
      c8St.port_monitor_index + 1 ∧
    (registerPortMonitorListener c8St 5 "COM9" true none 12).2.table 0 = c8St.table 0 :=
  ⟨(registerPortMonitor_appends c8St 5 "COM9" 12).1,
   (registerPortMonitor_appends c8St 5 "COM9" 12).2.1,
   (registerPortMonitor_appends c8St 5 "COM9" 12).2.2.1,
   (registerPortMonitor_appends c8St 5 "COM9" 12).2.2.2 0 (by decide)⟩

/-- Claim C9: readBytes never consults its count argument — every
underlying read is issued for the fixed bufferSize (1024) bytes of the
local buffer — so its result is identical for any two counts; a single
uninterrupted successful read returns exactly the bytes the kernel
delivered regardless of a smaller count, and since the kernel deposits
at most bufferSize bytes into the fixed buffer, the array returned from
a single uninterrupted read never exceeds 1024 bytes even when count is
larger. -/
theorem readBytes_ignores_count :
    (∀ (c c' : Int) (events : List ReadEvent), readBytes c events = readBytes c' events) ∧
    (∀ (c : Int) (e : ReadEvent), 0 < e.ret → e.errno = 0 →
      readBytes c [e] = ReadOutcome.arr (e.bytes.take e.ret.toNat)) ∧
    (∀ (c : Int) (e : ReadEvent), 0 < e.ret → e.errno = 0 →
      e.bytes.length ≤ bufferSize →
      ∃ l, readBytes c [e] = ReadOutcome.arr l ∧ l.length ≤ bufferSize) := by
  refine ⟨fun _ _ _ => rfl, ?_, ?_⟩
  · intro c e h1 h2
    simp [readBytes, readBytesLoop, h1, h2]
  · intro c e h1 h2 h3
    refine ⟨e.bytes.take e.ret.toNat, by simp [readBytes, readBytesLoop, h1, h2], ?_⟩
    have hlen : (e.bytes.take e.ret.toNat).length = min e.ret.toNat e.bytes.length :=
      List.length_take _ _
    rw [hlen]
    exact le_trans (min_le_right _ _) h3

/-- Witness for C9: a 5-byte read result yields the same 5-byte array
whether count is 0 or 9999, within the 1024-byte bound. -/
theorem readBytes_ignores_count_witness :
    readBytes 0 [⟨5, 0, [1, 2, 3, 4, 5]⟩] = readBytes 9999 [⟨5, 0, [1, 2, 3, 4, 5]⟩] ∧
    readBytes 0 [⟨5, 0, [1, 2, 3, 4, 5]⟩] =
      ReadOutcome.arr (([1, 2, 3, 4, 5] : List Int).take ((5 : Int)).toNat) ∧
    (∃ l, readBytes 0 [⟨5, 0, [1, 2, 3, 4, 5]⟩] = ReadOutcome.arr l ∧
      l.length ≤ bufferSize) :=
  ⟨readBytes_ignores_count.1 0 9999 [⟨5, 0, [1, 2, 3, 4, 5]⟩],
   readBytes_ignores_count.2.1 0 ⟨5, 0, [1, 2, 3, 4, 5]⟩ (by decide) rfl,
   readBytes_ignores_count.2.2 0 ⟨5, 0, [1, 2, 3, 4, 5]⟩ (by decide) rfl (by decide)⟩

/-- Claim C10: the teardown scans over the bounded tables: when some
slot below MAX_NUM_THREADS serves fd, the scan stops inside the table at
a slot serving fd, so every subsequent table access of the teardown is
in-bounds; when no slot matches, the scan runs to MAX_NUM_THREADS — one
past the table — and each teardown function then writes its exit flag
into that out-of-bounds slot. -/
theorem teardown_scan_bounds (t : Nat → ComThreadParams) (m : Nat → PortInfo)
    (reg : Registry) (st : MonitorState) (fd : Int) (j k : Nat) :
    ((∃ i, i < MAX_NUM_THREADS ∧ (t i).fd = fd) →
      scanForFd t fd < MAX_NUM_THREADS ∧ (t (scanForFd t fd)).fd = fd) ∧
    ((∀ i, i < MAX_NUM_THREADS → (t i).fd ≠ fd) →
      scanForFd t fd = MAX_NUM_THREADS) ∧
    ((∃ i, i < MAX_NUM_THREADS ∧ (m i).fd = fd) →
      scanMonitorFd m fd < MAX_NUM_THREADS ∧ (m (scanMonitorFd m fd)).fd = fd) ∧
    ((∀ i, i < MAX_NUM_THREADS → (m i).fd ≠ fd) →
      scanMonitorFd m fd = MAX_NUM_THREADS) ∧
    ((∀ i, i < MAX_NUM_THREADS → (reg.table i).fd ≠ fd) →
      ((destroyDataLooperThread reg fd j).2.table MAX_NUM_THREADS).data_thread_exit = 1 ∧
      ((destroyEventLooperThread reg fd j k).2.table MAX_NUM_THREADS).event_thread_exit = 1) ∧
    ((∀ i, i < MAX_NUM_THREADS → (st.table i).fd ≠ fd) →
      ((unregisterPortMonitorListener st fd j).2.table MAX_NUM_THREADS).thread_exit = 1) := by
  refine ⟨?_, ?_, ?_, ?_, ?_, ?_⟩
  · intro h
    have := linearScanAux_found (fun i => (t i).fd = fd) MAX_NUM_THREADS 0
      (by simpa using h)
    simpa [scanForFd] using this
  · intro h
    have := linearScanAux_not_found (fun i => (t i).fd = fd) MAX_NUM_THREADS 0
      (by simpa using h)
    simpa [scanForFd] using this
  · intro h
    have := linearScanAux_found (fun i => (m i).fd = fd) MAX_NUM_THREADS 0
      (by simpa using h)
    simpa [scanMonitorFd] using this
  · intro h
    have := linearScanAux_not_found (fun i => (m i).fd = fd) MAX_NUM_THREADS 0
      (by simpa using h)
    simpa [scanMonitorFd] using this
  · intro h
    have hs : scanForFd reg.table fd = MAX_NUM_THREADS := by
      have := linearScanAux_not_found (fun i => (reg.table i).fd = fd) MAX_NUM_THREADS 0
        (by simpa using h)
      simpa [scanForFd] using this
    constructor
    · by_cases hj : j ≠ 0
      · simp [destroyDataLooperThread, updTable, hs, hj]
      · by_cases hc : (reg.table MAX_NUM_THREADS).event_thread_id = 0 <;>
          simp [destroyDataLooperThread, updTable, hs, hj, hc]
    · by_cases hj : j ≠ 0
      · simp [destroyEventLooperThread, updTable, hs, hj]
      · by_cases hk : k ≠ 0
        · simp [destroyEventLooperThread, updTable, hs, hj, hk]
        · by_cases hc : (reg.table MAX_NUM_THREADS).data_thread_id = 0 <;>
            simp [destroyEventLooperThread, updTable, hs, hj, hk, hc]
  · intro h
    have hs : scanMonitorFd st.table fd = MAX_NUM_THREADS := by
      have := linearScanAux_not_found (fun i => (st.table i).fd = fd) MAX_NUM_THREADS 0
        (by simpa using h)
      simpa [scanMonitorFd] using this
    by_cases hj : j ≠ 0 <;>
      simp [unregisterPortMonitorListener, updTable, hs, hj]

/-- Witness for C10: the scans find descriptor 7 at slot 2 of c10Found
and descriptor 8 at slot 3 of c10MonFound; on the all-blank tables
descriptor 9 is unmatched, the scans return MAX_NUM_THREADS and each
teardown writes its exit flag one slot past the table. -/
theorem teardown_scan_bounds_witness :
    (scanForFd c10Found 7 < MAX_NUM_THREADS ∧ (c10Found (scanForFd c10Found 7)).fd = 7) ∧
    scanForFd c10Blank 9 = MAX_NUM_THREADS ∧
    (scanMonitorFd c10MonFound 8 < MAX_NUM_THREADS ∧
      (c10MonFound (scanMonitorFd c10MonFound 8)).fd = 8) ∧
    scanMonitorFd c10StBlank.table 9 = MAX_NUM_THREADS ∧
    (((destroyDataLooperThread c10RegBlank 9 0).2.table MAX_NUM_THREADS).data_thread_exit = 1 ∧
     ((destroyEventLooperThread c10RegBlank 9 0 0).2.table MAX_NUM_THREADS).event_thread_exit = 1) ∧
    ((unregisterPortMonitorListener c10StBlank 9 0).2.table MAX_NUM_THREADS).thread_exit = 1 :=
  ⟨(teardown_scan_bounds c10Found c10MonFound c10RegBlank c10StBlank 7 0 0).1
      ⟨2, by decide, by decide⟩,
   (teardown_scan_bounds c10Blank c10MonFound c10RegBlank c10StBlank 9 0 0).2.1
      (fun i _ => by exact (by decide : (0 : Int) ≠ 9)),
   (teardown_scan_bounds c10Found c10MonFound c10RegBlank c10StBlank 8 0 0).2.2.1
      ⟨3, by decide, by decide⟩,
   (teardown_scan_bounds c10Blank c10StBlank.table c10RegBlank c10StBlank 9 0 0).2.2.2.1
      (fun i _ => by exact (by decide : (0 : Int) ≠ 9)),
   (teardown_scan_bounds c10Blank c10MonFound c10RegBlank c10StBlank 9 0 0).2.2.2.2.1
      (fun i _ => by exact (by decide : (0 : Int) ≠ 9)),
   (teardown_scan_bounds c10Blank c10MonFound c10RegBlank c10StBlank 9 0 0).2.2.2.2.2
      (fun i _ => by exact (by decide : (0 : Int) ≠ 9))⟩

end UnixLikeSerial
